import Mathlib

/-!
Shallow embedding of the omni3 three-wheel holonomic robot motion core
(michele-bertoni/omni3): motor drivers, per-wheel speed interface, body/wheel
kinematics, odometry, and the movements scheduler, together with theorems
checking the natural-language specification against the code.

Conventions of the embedding:
- C++ `double` is modelled as `Real`; `unsigned long` timestamps as `Nat`
  (the embedding assumes no counter wraparound within one tick, i.e. the
  current time is at least the recorded start time, as the code itself does);
  `int` PWM values in the driver layer as `Int`.
- Mutable objects become explicit state records; a mutating method becomes a
  function from the old state to (result, new state).
- `delete` / `free` calls are memory management and have no observable effect
  in the model; dereferencing a null pointer is modelled as `Option.none`.
-/

/- =====================  motor_driver.h / MDD3A.h  ===================== -/

/-- Motor rotation request, from `MotorDriver::Direction` (motor_driver.h). -/
inductive Direction where
  | RELEASED
  | FORWARDS
  | BACKWARDS
  | BRAKED
deriving DecidableEq, Repr

/-- One `analogWrite(pin, value)` call performed by a driver. -/
structure PinWrite where
  pin : Nat
  value : Int
deriving DecidableEq, Repr

/-- Max PWM value (`MotorDriver::MAX_PWM`). -/
def MAX_PWM : Int := 255

/-- PWM value that keeps the motor still (`MotorDriver::STILL_PWM`). -/
def STILL_PWM : Int := 0

/-- `MotorDriver::rangedSpeed`: clamp a speed into [-MAX_PWM, MAX_PWM]. -/
def rangedSpeed (speed : Int) : Int :=
  if speed > MAX_PWM then MAX_PWM
  else if speed < -MAX_PWM then -MAX_PWM
  else speed

/-- State of one `MDD3A` dual-PWM driver: the two pin numbers fixed at
construction, the two direction booleans, and the cached speed inherited from
`MotorDriver`. -/
structure MDD3A where
  A : Nat
  B : Nat
  isAHigh : Bool
  isBHigh : Bool
  speed : Int
deriving DecidableEq, Repr

/-- `MDD3A::setDirection` (MDD3A.h lines 54-81): store the direction encoding
into the two booleans; no pin is written here. -/
def MDD3A.setDirection (d : MDD3A) (dir : Direction) : MDD3A :=
  match dir with
  | Direction.RELEASED => { d with isAHigh := false, isBHigh := false }
  | Direction.FORWARDS => { d with isAHigh := true, isBHigh := false }
  | Direction.BACKWARDS => { d with isAHigh := false, isBHigh := true }
  | Direction.BRAKED => { d with isAHigh := true, isBHigh := true }

/-- `MDD3A::setMagnitude` (MDD3A.h lines 44-48): the source multiplies the PIN
NUMBER by the direction boolean, `analogWrite(this->isAHigh*this->A, speed)`
and `analogWrite(this->isBHigh*this->B, speed)`; the returned list records the
two analogWrite calls in order. -/
def MDD3A.setMagnitude (d : MDD3A) (speed : Int) : List PinWrite :=
  [⟨(if d.isAHigh then 1 else 0) * d.A, speed⟩,
   ⟨(if d.isBHigh then 1 else 0) * d.B, speed⟩]

/-- `MotorDriver::setSpeed` (motor_driver.h lines 342-362) as inherited by
`MDD3A`: clamp, cache, derive the direction from the sign, make the speed
non-negative for a backwards rotation, then dispatch `setDirection` followed by
`setMagnitude`. Returns the updated driver state and the pin writes issued. -/
def MDD3A.setSpeed (d : MDD3A) (speed : Int) : MDD3A × List PinWrite :=
  let s := rangedSpeed speed
  let d1 := { d with speed := s }
  let dir := if s > 0 then Direction.FORWARDS
             else if s < 0 then Direction.BACKWARDS
             else Direction.RELEASED
  let mag := if s < 0 then -s else s
  let d2 := d1.setDirection dir
  (d2, d2.setMagnitude mag)

/-- Pin writes the specification's dual-PWM contract prescribes for a signed
speed `s`: the magnitude on pin A and 0 on pin B when `s > 0`, the reverse when
`s < 0`, and 0 on both when `s = 0`. -/
def MDD3A.specWrites (d : MDD3A) (speed : Int) : List PinWrite :=
  let s := rangedSpeed speed
  if s > 0 then [⟨d.A, s⟩, ⟨d.B, 0⟩]
  else if s < 0 then [⟨d.A, 0⟩, ⟨d.B, -s⟩]
  else [⟨d.A, 0⟩, ⟨d.B, 0⟩]

/- =====================  wheel.h (src/unnamed/part_001 variant)  ========== -/

noncomputable section

/-- State of one `Wheel` as far as speed commands are concerned: the maximum
angular speed and the stored target speed in PWM units (part_001 fields
`maxSpeed` and `targetSpeed`). -/
structure Wheel where
  maxSpeed : ℝ
  targetSpeed : ℝ

/-- Arduino `constrain(amt, low, high)` macro on doubles. -/
def constrain (amt low high : ℝ) : ℝ :=
  if amt < low then low else if amt > high then high else amt

/-- `Wheel::normAngularToPWM` (part_001 lines 266-269): conversion from
[-1, 1] to [-MAX_PWM, MAX_PWM]. -/
def Wheel.normAngularToPWM (nAngular : ℝ) : ℝ :=
  constrain (nAngular * (MAX_PWM : ℝ)) (-(MAX_PWM : ℝ)) (MAX_PWM : ℝ)

/-- `Wheel::setNormalizedSpeed` (part_001 lines 105-118), exactly as written:
note the source's second guard is `normSpeed > 1 || normSpeed < 1`. -/
def Wheel.setNormalizedSpeed (w : Wheel) (normSpeed : ℝ) : Bool × Wheel :=
  if normSpeed ≠ 0 ∧ w.maxSpeed = 0 then (false, w)
  else if normSpeed > 1 ∨ normSpeed < 1 then (false, w)
  else (true, { w with targetSpeed := Wheel.normAngularToPWM normSpeed })

/-- The behaviour the specification sentence states for `set_normalised_speed`:
fail exactly when the speed is non-zero while the maximum is 0 or when its
absolute value exceeds 1, otherwise store the clamped PWM target. Stated from
the spec's words for comparison with `Wheel.setNormalizedSpeed`. -/
def Wheel.setNormalizedSpeedClaim (w : Wheel) (normSpeed : ℝ) : Bool × Wheel :=
  if (normSpeed ≠ 0 ∧ w.maxSpeed = 0) ∨ |normSpeed| > 1 then (false, w)
  else (true, { w with targetSpeed := Wheel.normAngularToPWM normSpeed })

/- =====================  omni3.h / omni3.cpp kinematics  ================= -/

/-- Hard-coded constant `TAN30` (omni3.h line 43). -/
def TAN30 : ℝ := 0.57735027

/-- Hard-coded constant `COS30` (omni3.h line 48). -/
def COS30 : ℝ := 0.86602540

/-- Hard-coded constant `SIN30` (omni3.h line 53). -/
def SIN30 : ℝ := 0.5

/-- Hard-coded constant `COS180` (omni3.h line 58). -/
def COS180 : ℝ := -1.0

/-- A body-frame triple (FORWARD, STRAFE, THETA); the same index layout is
used for displacements, speeds and braking spaces. -/
structure Vec3 where
  fwd : ℝ
  str : ℝ
  th : ℝ

/-- A world-frame pose (POS_X, POS_Y, POS_PHI). -/
structure Pose where
  x : ℝ
  y : ℝ
  phi : ℝ

/-- A per-wheel triple in the order (W_RIGHT, W_BACK, W_LEFT). -/
structure WheelTriple where
  right : ℝ
  back : ℝ
  left : ℝ

/-- The wheel-speed triple computed by `Omni3::inverseKinematics`
(omni3.cpp lines 147-161), with the derived constants `S30_R = SIN30/R`,
`C30_R = COS30/R`, `C180_R = COS180/R`, `L_R = L/R` expanded. -/
def inverseKinematics (R L : ℝ) (speed : Vec3) : WheelTriple :=
  let S := SIN30 / R * speed.str
  let F := COS30 / R * speed.fwd
  let T := L / R * speed.th
  ⟨S + F + T, COS180 / R * speed.str + T, S - F + T⟩

/-- `Omni3::directKinematics` (omni3.cpp lines 133-145): body displacement
from the three wheels' angular displacements, with `T30R = TAN30*R`,
`R_3 = R/3`, `R_3L = R/(3L)` expanded. -/
def directKinematics (R L : ℝ) (w : WheelTriple) : Vec3 :=
  ⟨TAN30 * R * (w.right - w.left),
   R / 3 * (w.right - 2 * w.back + w.left),
   R / (3 * L) * (w.right + w.back + w.left)⟩

/-- The first wrapping loop of `Omni3::odometry` (omni3.cpp lines 191-193):
`while (phi >= TWO_PI) phi -= TWO_PI`. -/
def wrapDown (x : ℝ) : ℝ :=
  if h : 2 * Real.pi ≤ x then wrapDown (x - 2 * Real.pi) else x
termination_by Nat.ceil (x / (2 * Real.pi))
decreasing_by
  have hpi : (0:ℝ) < 2 * Real.pi := by positivity
  have ht : (1:ℝ) ≤ x / (2 * Real.pi) := by
    rw [le_div_iff₀ hpi]; linarith
  have harg : (x - 2 * Real.pi) / (2 * Real.pi) = x / (2 * Real.pi) - 1 := by
    field_simp
  rw [harg]
  have h1 : 1 ≤ Nat.ceil (x / (2 * Real.pi)) :=
    Nat.one_le_ceil_iff.mpr (lt_of_lt_of_le zero_lt_one ht)
  have h2 : Nat.ceil (x / (2 * Real.pi) - 1) ≤ Nat.ceil (x / (2 * Real.pi)) - 1 := by
    rw [Nat.ceil_le, Nat.cast_sub h1, Nat.cast_one]
    linarith [Nat.le_ceil (x / (2 * Real.pi))]
  exact lt_of_le_of_lt h2 (Nat.sub_lt (lt_of_lt_of_le zero_lt_one h1) zero_lt_one)

/-- The second wrapping loop of `Omni3::odometry` (omni3.cpp lines 194-196):
`while (phi < 0.0) phi += TWO_PI`. -/
def wrapUp (x : ℝ) : ℝ :=
  if h : x < 0 then wrapUp (x + 2 * Real.pi) else x
termination_by Nat.ceil (-x / (2 * Real.pi))
decreasing_by
  have hpi : (0:ℝ) < 2 * Real.pi := by positivity
  have ht : (0:ℝ) < -x / (2 * Real.pi) := div_pos (by linarith) hpi
  have harg : -(x + 2 * Real.pi) / (2 * Real.pi) = -x / (2 * Real.pi) - 1 := by
    field_simp
    ring
  rw [harg]
  have h1 : 1 ≤ Nat.ceil (-x / (2 * Real.pi)) := Nat.one_le_ceil_iff.mpr ht
  have h2 : Nat.ceil (-x / (2 * Real.pi) - 1) ≤ Nat.ceil (-x / (2 * Real.pi)) - 1 := by
    rw [Nat.ceil_le, Nat.cast_sub h1, Nat.cast_one]
    linarith [Nat.le_ceil (-x / (2 * Real.pi))]
  exact lt_of_le_of_lt h2 (Nat.sub_lt (lt_of_lt_of_le zero_lt_one h1) zero_lt_one)

/-- `Omni3::odometry` (omni3.cpp lines 179-197), exactly as written: note the
source ASSIGNS the new x and y from the displacement alone (the previous pose
x and y do not appear on the right-hand side); `displacement[POS_X]` is
`displacement[FORWARD]` and `displacement[POS_Y]` is `displacement[STRAFE]`. -/
def odometry (pos : Pose) (disp : Vec3) : Pose :=
  let alpha := pos.phi + disp.th / 2
  { x := Real.cos alpha * disp.fwd - Real.sin alpha * disp.str,
    y := Real.sin alpha * disp.fwd + Real.cos alpha * disp.str,
    phi := wrapUp (wrapDown (pos.phi + disp.th)) }

/-- The odometry update the claim states: accumulate the rotated displacement
onto the previous pose. Stated from the spec's words for comparison with
`odometry`. -/
def odometryClaim (pos : Pose) (disp : Vec3) : Pose :=
  let alpha := pos.phi + disp.th / 2
  { x := pos.x + disp.fwd * Real.cos alpha - disp.str * Real.sin alpha,
    y := pos.y + disp.fwd * Real.sin alpha + disp.str * Real.cos alpha,
    phi := wrapUp (wrapDown (pos.phi + disp.th)) }

/- =====================  movements.h  ===================== -/

/-- Seconds in one millisecond (`MILLIS`, movements.h line 46). -/
def MILLIS : ℝ := 0.001

/-- `pow2` macro (movements.h line 56): square. -/
def pow2 (a : ℝ) : ℝ := a * a

/-- `sPow2` macro (movements.h line 61): signed square `abs(a)*a`. -/
def sPow2 (a : ℝ) : ℝ := |a| * a

/-- `vectorsSumMag` macro (movements.h line 63): planar magnitude. -/
def vectorsSumMag (v1 v2 : ℝ) : ℝ := Real.sqrt (pow2 v1 + pow2 v2)

/-- `nSpAngMag` macro (movements.h line 68): rebalanced normalized magnitude. -/
def nSpAngMag (m m0 : ℝ) : ℝ := pow2 m / (|m| + |m0|)

/-- `nSpAngSMag` macro (movements.h line 73): signed rebalanced magnitude. -/
def nSpAngSMag (m m0 : ℝ) : ℝ := sPow2 m / (|m| + |m0|)

/-- C `lround`: round to the nearest integer, halfway cases away from zero. -/
def lround (x : ℝ) : ℤ :=
  if 0 ≤ x then ⌊x + 1 / 2⌋ else -⌊-x + 1 / 2⌋

/-- The duration test `(time - startTime) >= lround(_duration * TO_MILLIS)`
shared by `SpaceTimeLinear::isFinished` and `SpeedTimeLinear::isFinished`;
the signed `lround` result is converted to `unsigned long` (reduction modulo
2^64) by the C comparison. -/
def durationElapsed (time startTime : ℕ) (duration : ℝ) : Bool :=
  if (time - startTime : ℕ) ≥ (lround (duration * 1000) % (2 ^ 64)).toNat
  then true else false

/-- `Movements::Movement::angularDistance` (movements.h lines 106-109). -/
def angularDistance (phi1 phi2 : ℝ) : ℝ :=
  let angDist := |phi1 - phi2|
  if angDist > Real.pi then 2 * Real.pi - angDist else angDist

/-- `Movements::FiniteMovement::xyToSF` (movements.h lines 143-149): rotation
of a world-frame vector into the (FORWARD, STRAFE) body frame. -/
def xyToSF (x y phi : ℝ) : ℝ × ℝ :=
  (x * Real.cos phi + y * Real.sin phi, -x * Real.sin phi + y * Real.cos phi)

/-- The shortest signed arc from `phi` to `phiStar`: for inputs in [0, 2*pi)
the unique representative of `phiStar - phi` modulo 2*pi lying in (-pi, pi].
Stated from the claim's words for comparison with `angularDistance`. -/
def shortestSignedArc (phi phiStar : ℝ) : ℝ :=
  let d := phiStar - phi
  if d > Real.pi then d - 2 * Real.pi
  else if d ≤ -Real.pi then d + 2 * Real.pi
  else d

/-- `FiniteMovement::linearTolerance` (movements.h line 159). -/
def linearTolerance : ℝ := 0.01

/-- `FiniteMovement::angularTolerance` (movements.h line 164). -/
def angularTolerance : ℝ := 0.0174533

/-- Per-axis `_isFinished` flags of `FiniteMovement` (movements.h line 154). -/
structure Flags where
  fwd : Bool
  str : Bool
  th : Bool

/-- The per-axis completion test written out for each axis in
`SpaceTimeLinear::isFinished` and `SpaceSpeedLinear::isFinished`:
`disp <= max(bs, tol) && disp >= -max(bs, tol)`. -/
def axisFinished (disp bs tol : ℝ) : Bool :=
  if disp ≤ max bs tol ∧ -(max bs tol) ≤ disp then true else false

/-- State of a `SpaceTimeLinear` movement (movements.h lines 245-345). -/
structure SpaceTimeLinear where
  target : Pose
  displacements : Vec3
  isFin : Flags
  duration : ℝ
  startTime : ℕ

/-- Constructor `SpaceTimeLinear(x, y, phi, duration)` (lines 254-260). -/
def mkSpaceTimeLinear (x y phi duration : ℝ) : SpaceTimeLinear :=
  ⟨⟨x, y, phi⟩, ⟨0, 0, 0⟩, ⟨false, false, false⟩, duration, 0⟩

/-- `SpaceTimeLinear::isFinished` (movements.h lines 271-303). -/
def SpaceTimeLinear.isFinished (m : SpaceTimeLinear) (position : Pose)
    (brakingSpace : Vec3) (time : ℕ) : Bool × SpaceTimeLinear :=
  let m1 := if m.startTime = 0
            then { m with startTime := if time ≠ 0 then time else 1 } else m
  if durationElapsed time m1.startTime m1.duration then (true, m1)
  else
    let sf := xyToSF (m1.target.x - position.x) (m1.target.y - position.y)
                position.phi
    let disp : Vec3 := ⟨sf.1, sf.2, angularDistance m1.target.phi position.phi⟩
    let fF := axisFinished disp.fwd brakingSpace.fwd linearTolerance
    let fS := axisFinished disp.str brakingSpace.str linearTolerance
    let fT := axisFinished disp.th brakingSpace.th angularTolerance
    (fF && fS && fT, { m1 with displacements := disp, isFin := ⟨fF, fS, fT⟩ })

/-- `SpaceTimeLinear::getSpeed` (movements.h lines 312-323); the dispatching
wrapper adds the `false` (not normalized) result. -/
def SpaceTimeLinear.getSpeed (m : SpaceTimeLinear) (time : ℕ) : Vec3 :=
  let dt := m.duration - ((time - m.startTime : ℕ) : ℝ) * MILLIS
  ⟨if m.isFin.fwd then 0 else m.displacements.fwd / dt,
   if m.isFin.str then 0 else m.displacements.str / dt,
   if m.isFin.th then 0 else m.displacements.th / dt⟩

/-- State of a `SpaceSpeedLinear` movement (movements.h lines 350-440); the
`normalized` field records the overriding `getSpeed` return value of the
`SpaceNormSpeedLinear` subclass (false for the base class). -/
structure SpaceSpeedLinear where
  target : Pose
  displacements : Vec3
  isFin : Flags
  speedMagnitude : ℝ
  angularSpeedMagnitude : ℝ
  normalized : Bool

/-- Constructor `SpaceSpeedLinear(x, y, phi, speedMag, angularMag)`. -/
def mkSpaceSpeedLinear (x y phi speedMag angularMag : ℝ) : SpaceSpeedLinear :=
  ⟨⟨x, y, phi⟩, ⟨0, 0, 0⟩, ⟨false, false, false⟩, speedMag, angularMag, false⟩

/-- Constructor `SpaceNormSpeedLinear(x, y, phi, speedNorm, angularNorm)`
(movements.h lines 456-458): a `SpaceSpeedLinear` with rebalanced magnitudes
whose `getSpeed` reports normalized output. -/
def mkSpaceNormSpeedLinear (x y phi speedNorm angularNorm : ℝ) : SpaceSpeedLinear :=
  { mkSpaceSpeedLinear x y phi (nSpAngMag speedNorm angularNorm)
      (nSpAngMag angularNorm speedNorm) with normalized := true }

/-- `SpaceSpeedLinear::isFinished` (movements.h lines 377-397). -/
def SpaceSpeedLinear.isFinished (m : SpaceSpeedLinear) (position : Pose)
    (brakingSpace : Vec3) (time : ℕ) : Bool × SpaceSpeedLinear :=
  let sf := xyToSF (m.target.x - position.x) (m.target.y - position.y)
              position.phi
  let disp : Vec3 := ⟨sf.1, sf.2, angularDistance m.target.phi position.phi⟩
  let fF := axisFinished disp.fwd brakingSpace.fwd linearTolerance
  let fS := axisFinished disp.str brakingSpace.str linearTolerance
  let fT := axisFinished disp.th brakingSpace.th angularTolerance
  (fF && fS && fT, { m with displacements := disp, isFin := ⟨fF, fS, fT⟩ })

/-- `SpaceSpeedLinear::getSpeed` (movements.h lines 406-417). -/
def SpaceSpeedLinear.getSpeed (m : SpaceSpeedLinear) (time : ℕ) : Vec3 :=
  let normFactor :=
    m.speedMagnitude / vectorsSumMag m.displacements.fwd m.displacements.str
  ⟨if m.isFin.fwd then 0 else m.displacements.fwd * normFactor,
   if m.isFin.str then 0 else m.displacements.str * normFactor,
   if m.isFin.th then 0
   else (if m.displacements.th ≥ 0 then 1 else -1) * m.angularSpeedMagnitude⟩

/-- State of a `SpeedTimeLinear` movement (movements.h lines 476-548); the
`normalized` field records the overriding `getSpeed` return value of the
`NormSpeedTimeLinear` subclass (false for the base class). -/
structure SpeedTimeLinear where
  speed : Vec3
  duration : ℝ
  startTime : ℕ
  normalized : Bool

/-- Constructor `SpeedTimeLinear(forward, strafe, angular, duration)`. -/
def mkSpeedTimeLinear (forward strafe angular duration : ℝ) : SpeedTimeLinear :=
  ⟨⟨forward, strafe, angular⟩, duration, 0, false⟩

/-- Constructor `NormSpeedTimeLinear(speedNorm, theta, angularNorm, duration)`
(movements.h lines 564-569). -/
def mkNormSpeedTimeLinear (speedNorm theta angularNorm duration : ℝ) :
    SpeedTimeLinear :=
  { mkSpeedTimeLinear (nSpAngMag speedNorm angularNorm * Real.cos theta)
      (nSpAngMag speedNorm angularNorm * Real.sin theta)
      (nSpAngSMag angularNorm speedNorm) duration with normalized := true }

/-- `SpeedTimeLinear::isFinished` (movements.h lines 502-515). -/
def SpeedTimeLinear.isFinished (m : SpeedTimeLinear) (position : Pose)
    (brakingSpace : Vec3) (time : ℕ) : Bool × SpeedTimeLinear :=
  let m1 := if m.startTime = 0
            then { m with startTime := if time ≠ 0 then time else 1 } else m
  (durationElapsed time m1.startTime m1.duration, m1)

/-- `SpeedTimeLinear::getSpeed` (movements.h lines 523-530). -/
def SpeedTimeLinear.getSpeed (m : SpeedTimeLinear) (time : ℕ) : Vec3 :=
  m.speed

/-- The finite movement primitives as a tagged sum; `SpaceNormSpeedLinear` and
`NormSpeedTimeLinear` are carried by their base variants with the `normalized`
field set. -/
inductive FiniteMovement where
  | stl : SpaceTimeLinear → FiniteMovement
  | ssl : SpaceSpeedLinear → FiniteMovement
  | spt : SpeedTimeLinear → FiniteMovement

/-- Virtual dispatch of `FiniteMovement::isFinished`: the boolean result and
the updated object state. -/
def FiniteMovement.isFinished (fm : FiniteMovement) (position : Pose)
    (brakingSpace : Vec3) (time : ℕ) : Bool × FiniteMovement :=
  match fm with
  | .stl m =>
    let r := m.isFinished position brakingSpace time
    (r.1, .stl r.2)
  | .ssl m =>
    let r := m.isFinished position brakingSpace time
    (r.1, .ssl r.2)
  | .spt m =>
    let r := m.isFinished position brakingSpace time
    (r.1, .spt r.2)

/-- Virtual dispatch of `Movement::getSpeed` for finite movements: the boolean
is the "targetSpeed is normalized" return value. -/
def FiniteMovement.getSpeed (fm : FiniteMovement) (time : ℕ) : Bool × Vec3 :=
  match fm with
  | .stl m => (false, m.getSpeed time)
  | .ssl m => (m.normalized, m.getSpeed time)
  | .spt m => (m.normalized, m.getSpeed time)

/-- The indefinite movement primitives: the `Still` singleton and
`SpeedIndefinite` (with `NormSpeedIndefinite` carried by the same variant with
the `normalized` flag set). -/
inductive IndefiniteMovement where
  | still : IndefiniteMovement
  | speedIndefinite : Vec3 → Bool → IndefiniteMovement

/-- Virtual dispatch of `Movement::getSpeed` for indefinite movements:
`Still::getSpeed` emits (0,0,0) as normalized (movements.h lines 198-204). -/
def IndefiniteMovement.getSpeed (im : IndefiniteMovement) (time : ℕ) :
    Bool × Vec3 :=
  match im with
  | .still => (true, ⟨0, 0, 0⟩)
  | .speedIndefinite v normalized => (normalized, v)

/-- Constructor `SpeedIndefinite(forward, strafe, angular)`. -/
def mkSpeedIndefinite (forward strafe angular : ℝ) : IndefiniteMovement :=
  .speedIndefinite ⟨forward, strafe, angular⟩ false

/-- Constructor `NormSpeedIndefinite(speedNorm, theta, angularNorm)`
(movements.h lines 639-643). -/
def mkNormSpeedIndefinite (speedNorm theta angularNorm : ℝ) : IndefiniteMovement :=
  .speedIndefinite
    ⟨nSpAngMag speedNorm angularNorm * Real.cos theta,
     nSpAngMag speedNorm angularNorm * Real.sin theta,
     nSpAngSMag angularNorm speedNorm⟩ true

/-- `MAX_MOVEMENTS` (movements.h line 661). -/
def MAX_MOVEMENTS : ℕ := 10

/-- State of the `Movements` scheduler: the live prefix of the
`movementsSchedule` array (its length is the source's `freeIndex`), the
current indefinite fallback and the friction coefficients. -/
structure Movements where
  movementsSchedule : List FiniteMovement
  defaultMovement : IndefiniteMovement
  frictionCoefficient : Vec3

/-- `Movements::setIndefiniteMovement` (movements.h lines 688-694); freeing
the previous movement has no observable effect in the model. -/
def Movements.setIndefiniteMovement (mv : Movements)
    (indefiniteMovement : IndefiniteMovement) : Movements :=
  { mv with defaultMovement := indefiniteMovement }

/-- `Movements::addStop` (movements.h lines 751-753). -/
def Movements.addStop (mv : Movements) : Movements :=
  mv.setIndefiniteMovement .still

/-- `Movements::appendFiniteMovement` (movements.h lines 701-715): when the
schedule is full the new movement is deleted (no observable effect) and the
call fails; otherwise `addStop()` runs and the movement is appended. -/
def Movements.appendFiniteMovement (mv : Movements) (finiteMovement : FiniteMovement) :
    Bool × Movements :=
  if mv.movementsSchedule.length ≥ MAX_MOVEMENTS then (false, mv)
  else
    (true, { mv.addStop with
               movementsSchedule := mv.movementsSchedule ++ [finiteMovement] })

/-- `Movements::addConstantSpeedMovement` (movements.h lines 761-763). -/
def Movements.addConstantSpeedMovement (mv : Movements)
    (forward strafe angular : ℝ) : Movements :=
  mv.setIndefiniteMovement (mkSpeedIndefinite forward strafe angular)

/-- `Movements::addConstantNormSpeedMovement` (movements.h lines 772-774);
the source's missing return value is never read by its caller. -/
def Movements.addConstantNormSpeedMovement (mv : Movements)
    (speedNorm theta angularNorm : ℝ) : Movements :=
  mv.setIndefiniteMovement (mkNormSpeedIndefinite speedNorm theta angularNorm)

/-- `Movements::addTargetPosTime` (movements.h lines 784-786). -/
def Movements.addTargetPosTime (mv : Movements) (x y phi duration : ℝ) :
    Bool × Movements :=
  mv.appendFiniteMovement (.stl (mkSpaceTimeLinear x y phi duration))

/-- `Movements::addTargetPosSpeed` (movements.h lines 797-799). -/
def Movements.addTargetPosSpeed (mv : Movements)
    (x y phi speedMag angularMag : ℝ) : Bool × Movements :=
  mv.appendFiniteMovement (.ssl (mkSpaceSpeedLinear x y phi speedMag angularMag))

/-- `Movements::addTargetPosNormSpeed` (movements.h lines 810-815). -/
def Movements.addTargetPosNormSpeed (mv : Movements)
    (x y phi speedNorm angularNorm : ℝ) : Bool × Movements :=
  if speedNorm < 0 ∨ speedNorm > 1 ∨ angularNorm < 0 ∨ angularNorm > 1
  then (false, mv)
  else mv.appendFiniteMovement
    (.ssl (mkSpaceNormSpeedLinear x y phi speedNorm angularNorm))

/-- `Movements::addTargetSpeedTime` (movements.h lines 825-827). -/
def Movements.addTargetSpeedTime (mv : Movements)
    (forward strafe angular duration : ℝ) : Bool × Movements :=
  mv.appendFiniteMovement (.spt (mkSpeedTimeLinear forward strafe angular duration))

/-- `Movements::addTargetNormSpeedTime` (movements.h lines 837-839). -/
def Movements.addTargetNormSpeedTime (mv : Movements)
    (speedNorm theta angularNorm duration : ℝ) : Bool × Movements :=
  mv.appendFiniteMovement
    (.spt (mkNormSpeedTimeLinear speedNorm theta angularNorm duration))

/-- The completion-scan while loop of `Movements::handle` (movements.h lines
861-869), entered only when the schedule is non-empty: while the head movement
reports finished, delete it and shift the schedule, then re-evaluate the loop
condition on the new head. When a removal empties the schedule the source
re-evaluates the condition on `movementsSchedule[0]`, which is then a null
pointer; that dereference is modelled as `none`. On normal exit the result is
the not-finished head (with its state updated by `isFinished`) and the rest. -/
def scanSchedule (position : Pose) (brakingSpace : Vec3) (time : ℕ) :
    List FiniteMovement → Option (FiniteMovement × List FiniteMovement)
  | [] => none
  | fm :: rest =>
    let r := fm.isFinished position brakingSpace time
    if r.1 then scanSchedule position brakingSpace time rest
    else some (r.2, rest)

/-- `Movements::handle` (movements.h lines 849-875). Returns `none` when the
source dereferences the null schedule head inside the scan loop, otherwise
`some` of the (normalized?, targetSpeed) results and the updated scheduler.
After a normal loop exit the head is not finished, so the source's trailing
`freeIndex <= 0` re-check always takes the schedule-head branch. -/
def Movements.handle (mv : Movements) (currentPosition : Pose)
    (currentSpeed : Vec3) (time : ℕ) : Option (Bool × Vec3 × Movements) :=
  if mv.movementsSchedule.length ≤ 0 then
    let r := mv.defaultMovement.getSpeed time
    some (r.1, r.2, mv)
  else
    let brakingSpace : Vec3 :=
      ⟨pow2 currentSpeed.fwd * mv.frictionCoefficient.fwd,
       pow2 currentSpeed.str * mv.frictionCoefficient.str,
       pow2 currentSpeed.th * mv.frictionCoefficient.th⟩
    match scanSchedule currentPosition brakingSpace time mv.movementsSchedule with
    | none => none
    | some (head, rest) =>
      let r := head.getSpeed time
      some (r.1, r.2, { mv with movementsSchedule := head :: rest })

/- =====================  omni3.cpp: Omni3 state, home, messages  ========= -/

/-- The part of the `Omni3` object state read or written by `home` and
`handleMessage`: the world-frame pose, the last measured body displacement and
the movements scheduler. (The wheels, radii and timestamps are untouched by
every code path modelled here.) -/
structure Omni3State where
  currentPosition : Pose
  displacement : Vec3
  movementsHandler : Movements

/-- `Omni3::home` (omni3.cpp lines 52-66). -/
def Omni3.home (s : Omni3State) : Bool × Omni3State :=
  if s.displacement.fwd ≠ 0 ∨ s.displacement.str ≠ 0 ∨ s.displacement.th ≠ 0
  then (false, s)
  else (true, { s with currentPosition := ⟨0, 0, 0⟩ })

/-- `Omni3::handleTestersMessage` (omni3.cpp lines 254-271): every switch case
falls through to `return false` and no state is touched. -/
def Omni3.handleTestersMessage (testType : ℕ) : Bool := false

/-- `Omni3::handleSettersMessage` (omni3.cpp lines 273-275). -/
def Omni3.handleSettersMessage (setterType argsLen : ℕ) (args : List ℝ) : Bool :=
  false

/-- `Omni3::handleFunctionsMessage` (omni3.cpp lines 277-279). -/
def Omni3.handleFunctionsMessage (functionType : ℕ) : Bool := false

/-- `Omni3::handleMovementsMessage` (omni3.cpp lines 199-252); `args.getD i 0`
reads `args[i]` (the caller always passes an array of MAX_ARGS doubles). -/
def Omni3.handleMovementsMessage (s : Omni3State) (movementType argsLen : ℕ)
    (args : List ℝ) : Bool × Omni3State :=
  let a := fun i => args.getD i 0
  match movementType with
  | 0 =>
    if argsLen = 0
    then (true, { s with movementsHandler := s.movementsHandler.addStop })
    else (false, s)
  | 1 =>
    if argsLen = 3
    then (true, { s with movementsHandler :=
                    s.movementsHandler.addConstantSpeedMovement (a 0) (a 1) (a 2) })
    else (false, s)
  | 2 =>
    if argsLen = 3
    then (true, { s with movementsHandler :=
                    s.movementsHandler.addConstantNormSpeedMovement (a 0) (a 1) (a 2) })
    else (false, s)
  | 3 =>
    if argsLen = 4
    then
      let r := s.movementsHandler.addTargetPosTime (a 0) (a 1) (a 2) (a 3)
      (r.1, { s with movementsHandler := r.2 })
    else (false, s)
  | 4 =>
    if argsLen = 5
    then
      let r := s.movementsHandler.addTargetPosSpeed (a 0) (a 1) (a 2) (a 3) (a 4)
      (r.1, { s with movementsHandler := r.2 })
    else (false, s)
  | 5 =>
    if argsLen = 5
    then
      let r := s.movementsHandler.addTargetPosNormSpeed (a 0) (a 1) (a 2) (a 3) (a 4)
      (r.1, { s with movementsHandler := r.2 })
    else (false, s)
  | 6 =>
    if argsLen = 4
    then
      let r := s.movementsHandler.addTargetSpeedTime (a 0) (a 1) (a 2) (a 3)
      (r.1, { s with movementsHandler := r.2 })
    else (false, s)
  | 7 =>
    if argsLen = 4
    then
      let r := s.movementsHandler.addTargetNormSpeedTime (a 0) (a 1) (a 2) (a 3)
      (r.1, { s with movementsHandler := r.2 })
    else (false, s)
  | _ => (false, s)

/-- `Omni3::handleMessage` (omni3.cpp lines 75-97): `argsLen` is the low three
bits of the message byte and `msgType` its upper five bits; movements dispatch
on `msgType & 0b1111`, testers/setters/functions on `msgType & 0b111`. -/
def Omni3.handleMessage (s : Omni3State) (message : ℕ) (args : List ℝ) :
    Bool × Omni3State :=
  let argsLen := message % 8
  let msgType := message / 8
  if msgType ≥ 16 then
    Omni3.handleMovementsMessage s (msgType % 16) argsLen args
  else if msgType ≥ 8 then
    if argsLen = 0 then (Omni3.handleTestersMessage (msgType % 8), s)
    else (Omni3.handleSettersMessage (msgType % 8) argsLen args, s)
  else (Omni3.handleFunctionsMessage (msgType % 8), s)

end

/- =====================  theorems  ===================== -/

/-- Exiting the first wrapping loop: its result is below `2*pi` (the loop
keeps subtracting `2*pi` until the guard `phi >= TWO_PI` fails). -/
theorem wrapDown_lt_twoPi (x : ℝ) : wrapDown x < 2 * Real.pi := by
  induction x using wrapDown.induct with
  | case1 x h ih =>
    rw [wrapDown.eq_def, dif_pos h]
    exact ih
  | case2 x h =>
    rw [wrapDown.eq_def, dif_neg h]
    exact lt_of_not_le h

/-- The first wrapping loop never drives a non-negative angle negative. -/
theorem wrapDown_nonneg : ∀ x : ℝ, 0 ≤ x → 0 ≤ wrapDown x := by
  intro x
  induction x using wrapDown.induct with
  | case1 x h ih =>
    intro _
    rw [wrapDown.eq_def, dif_pos h]
    exact ih (by nlinarith [Real.pi_pos])
  | case2 x h =>
    intro hx
    rw [wrapDown.eq_def, dif_neg h]
    exact hx

/-- Exiting the second wrapping loop: its result is non-negative (the loop
keeps adding `2*pi` until the guard `phi < 0.0` fails). -/
theorem wrapUp_nonneg (x : ℝ) : 0 ≤ wrapUp x := by
  induction x using wrapUp.induct with
  | case1 x h ih =>
    rw [wrapUp.eq_def, dif_pos h]
    exact ih
  | case2 x h =>
    rw [wrapUp.eq_def, dif_neg h]
    exact not_lt.mp h

/-- The second wrapping loop never drives an angle below `2*pi` up to it. -/
theorem wrapUp_lt_twoPi : ∀ x : ℝ, x < 2 * Real.pi → wrapUp x < 2 * Real.pi := by
  intro x
  induction x using wrapUp.induct with
  | case1 x h ih =>
    intro _
    rw [wrapUp.eq_def, dif_pos h]
    exact ih (by nlinarith [Real.pi_pos])
  | case2 x h =>
    intro hx
    rw [wrapUp.eq_def, dif_neg h]
    exact hx

/-- An angle already in range is a fixed point of the first loop. -/
theorem wrapDown_eq_self (x : ℝ) (h : x < 2 * Real.pi) : wrapDown x = x := by
  rw [wrapDown.eq_def, dif_neg (not_le.mpr h)]

/-- An angle already in range is a fixed point of the second loop. -/
theorem wrapUp_eq_self (x : ℝ) (h : 0 ≤ x) : wrapUp x = x := by
  rw [wrapUp.eq_def, dif_neg (not_lt.mpr h)]

/-- C6: after every odometry update the heading component of the pose lies in
[0, 2*pi), for every starting pose with heading in [0, 2*pi) and every body
displacement. -/
theorem odometry_phi_in_range (pos : Pose) (disp : Vec3)
    (h0 : 0 ≤ pos.phi) (h1 : pos.phi < 2 * Real.pi) :
    0 ≤ (odometry pos disp).phi ∧ (odometry pos disp).phi < 2 * Real.pi := by
  constructor
  · exact wrapUp_nonneg _
  · exact wrapUp_lt_twoPi _ (wrapDown_lt_twoPi _)

/-- Witness for C6 at the home pose with zero displacement. -/
theorem odometry_phi_in_range_witness :
    (0 ≤ (Pose.mk 0 0 0).phi ∧ (Pose.mk 0 0 0).phi < 2 * Real.pi) ∧
    (0 ≤ (odometry ⟨0, 0, 0⟩ ⟨0, 0, 0⟩).phi ∧
      (odometry ⟨0, 0, 0⟩ ⟨0, 0, 0⟩).phi < 2 * Real.pi) :=
  ⟨⟨le_refl 0, by positivity⟩,
   odometry_phi_in_range ⟨0, 0, 0⟩ ⟨0, 0, 0⟩ (le_refl 0) (by positivity)⟩

/-- C3: the source's odometry ASSIGNS the new x and y from the displacement
alone instead of accumulating onto the previous pose: starting from pose
(1, 0, 0) with zero displacement the code returns pose (0, 0, 0), while the
claimed update x' = x + dF*cos(alpha) - dS*sin(alpha) (stated as
`odometryClaim`) keeps (1, 0, 0). -/
theorem odometry_discards_previous_xy :
    odometry ⟨1, 0, 0⟩ ⟨0, 0, 0⟩ = ⟨0, 0, 0⟩ ∧
    odometryClaim ⟨1, 0, 0⟩ ⟨0, 0, 0⟩ = ⟨1, 0, 0⟩ ∧
    (0 : ℝ) ≠ 1 := by
  have hwrap : wrapUp (wrapDown (0 : ℝ)) = 0 := by
    rw [wrapDown_eq_self 0 (by positivity), wrapUp_eq_self 0 le_rfl]
  refine ⟨?_, ?_, by norm_num⟩
  · simp [odometry, hwrap]
  · simp [odometryClaim, hwrap]

/-- C5: applying the inverse kinematics and then the forward kinematics
returns the original body velocity up to the precision of the hard-coded
trigonometric constants: the STRAFE and THETA components come back exactly,
and the FORWARD component comes back scaled by 2*TAN30*COS30, which differs
from 1 by less than 10^-7 (the exact defect of the 8-digit decimal constants;
with exact trigonometry 2*tan(30)*cos(30) = 1). -/
theorem kinematics_roundtrip (F S T R L : ℝ) (hR : 0 < R) (hL : 0 < L) :
    directKinematics R L (inverseKinematics R L ⟨F, S, T⟩) =
      ⟨2 * TAN30 * COS30 * F, S, T⟩ ∧
    |2 * TAN30 * COS30 - 1| < 1 / 10 ^ 7 := by
  have hR' : R ≠ 0 := ne_of_gt hR
  have hL' : L ≠ 0 := ne_of_gt hL
  constructor
  · simp only [directKinematics, inverseKinematics, TAN30, COS30, SIN30,
      COS180, Vec3.mk.injEq]
    refine ⟨?_, ?_, ?_⟩ <;> field_simp <;> ring
  · rw [abs_lt]
    constructor <;> norm_num [TAN30, COS30]

/-- Witness for C5 at R = L = 1 on the body velocity (1, 1, 1). -/
theorem kinematics_roundtrip_witness :
    ((0 : ℝ) < 1) ∧
    (directKinematics 1 1 (inverseKinematics 1 1 ⟨1, 1, 1⟩) =
        ⟨2 * TAN30 * COS30 * 1, 1, 1⟩ ∧
      |2 * TAN30 * COS30 - 1| < 1 / 10 ^ 7) :=
  ⟨by norm_num, kinematics_roundtrip 1 1 1 1 1 (by norm_num) (by norm_num)⟩

/-- C4 counterexample: the angular displacement computed by
`Movements::Movement::angularDistance` is not the shortest SIGNED arc. From
heading 0 to target heading 3*pi/2 the shortest signed arc is -pi/2 (a
clockwise turn), but the code returns +pi/2: the magnitude matches while the
sign does not. -/
theorem angularDistance_not_signed :
    angularDistance (3 * Real.pi / 2) 0 = Real.pi / 2 ∧
    shortestSignedArc 0 (3 * Real.pi / 2) = -(Real.pi / 2) ∧
    Real.pi / 2 ≠ -(Real.pi / 2) := by
  have hpi := Real.pi_pos
  refine ⟨?_, ?_, by intro h; linarith⟩
  · unfold angularDistance
    rw [show (3 * Real.pi / 2 - 0 : ℝ) = 3 * Real.pi / 2 by ring,
      abs_of_nonneg (by linarith)]
    rw [if_pos (by linarith)]
    ring
  · unfold shortestSignedArc
    rw [show (3 * Real.pi / 2 - 0 : ℝ) = 3 * Real.pi / 2 by ring]
    rw [if_pos (by linarith)]
    ring

/-- C4 amended: for headings in [0, 2*pi) the angular displacement used by the
position-target movements is the UNSIGNED shortest arc: `angularDistance`
returns exactly min(|phi* - phi|, 2*pi - |phi* - phi|), which is always
non-negative, so it carries no turning direction; consequently
`SpaceSpeedLinear::getSpeed` emits the theta speed with a constant positive
sign (+angularSpeedMagnitude) whenever the theta axis is not finished and the
stored theta displacement is (as always produced) non-negative. -/
theorem angularDistance_unsigned_min (phi phiStar : ℝ)
    (h0 : 0 ≤ phi) (h1 : phi < 2 * Real.pi)
    (h2 : 0 ≤ phiStar) (h3 : phiStar < 2 * Real.pi) :
    angularDistance phiStar phi
      = min |phiStar - phi| (2 * Real.pi - |phiStar - phi|) ∧
    0 ≤ angularDistance phiStar phi ∧
    ∀ (m : SpaceSpeedLinear) (time : ℕ),
      m.isFin.th = false → 0 ≤ m.displacements.th →
      (m.getSpeed time).th = m.angularSpeedMagnitude := by
  have habs : |phiStar - phi| < 2 * Real.pi := by
    rw [abs_lt]
    constructor <;> linarith
  have habs0 : 0 ≤ |phiStar - phi| := abs_nonneg _
  refine ⟨?_, ?_, ?_⟩
  · unfold angularDistance
    by_cases hd : |phiStar - phi| > Real.pi
    · rw [if_pos hd, min_eq_right (by linarith)]
    · rw [if_neg hd, min_eq_left (by push_neg at hd; linarith)]
  · unfold angularDistance
    by_cases hd : |phiStar - phi| > Real.pi
    · rw [if_pos hd]
      linarith
    · rw [if_neg hd]
      exact habs0
  · intro m time hfin hth
    simp [SpaceSpeedLinear.getSpeed, hfin, hth]

/-- Witness for the amended C4 at current heading 0 and target heading pi/2:
the code's displacement is pi/2 = min(pi/2, 3*pi/2). -/
theorem angularDistance_unsigned_min_witness :
    ((0 : ℝ) ≤ 0 ∧ (0 : ℝ) < 2 * Real.pi ∧
      (0 : ℝ) ≤ Real.pi / 2 ∧ Real.pi / 2 < 2 * Real.pi) ∧
    (angularDistance (Real.pi / 2) 0
        = min |Real.pi / 2 - 0| (2 * Real.pi - |Real.pi / 2 - 0|) ∧
      0 ≤ angularDistance (Real.pi / 2) 0 ∧
      ∀ (m : SpaceSpeedLinear) (time : ℕ),
        m.isFin.th = false → 0 ≤ m.displacements.th →
        (m.getSpeed time).th = m.angularSpeedMagnitude) :=
  ⟨⟨le_rfl, by positivity, by positivity, by linarith [Real.pi_pos]⟩,
   angularDistance_unsigned_min 0 (Real.pi / 2) le_rfl (by positivity)
     (by positivity) (by linarith [Real.pi_pos])⟩

/-- C2: the range guard of `Wheel::setNormalizedSpeed` (part_001 line 111)
reads `normSpeed > 1 || normSpeed < 1`, so the in-range request 1/2 with a
positive maximum speed is rejected, while the specified behaviour (stated as
`Wheel.setNormalizedSpeedClaim`) accepts it and stores the clamped PWM
target; the two results differ. -/
theorem setNormalizedSpeed_rejects_valid_speed :
    (Wheel.setNormalizedSpeed ⟨1, 0⟩ (1 / 2)).1 = false ∧
    (Wheel.setNormalizedSpeedClaim ⟨1, 0⟩ (1 / 2)).1 = true ∧
    Wheel.setNormalizedSpeed ⟨1, 0⟩ (1 / 2) ≠
      Wheel.setNormalizedSpeedClaim ⟨1, 0⟩ (1 / 2) := by
  have habs : |(1 / 2 : ℝ)| = 1 / 2 := abs_of_nonneg (by norm_num)
  refine ⟨?_, ?_, ?_⟩ <;>
    norm_num [Wheel.setNormalizedSpeed, Wheel.setNormalizedSpeedClaim,
      Wheel.normAngularToPWM, constrain, MAX_PWM, habs]

/-- C7: starting from any schedule within the bound, the schedule length after
`Movements::appendFiniteMovement` stays at most MAX_MOVEMENTS = 10, and when
the schedule already holds exactly 10 movements the call returns false and
leaves the whole scheduler state (schedule contents, size and indefinite
fallback) unchanged. -/
theorem appendFiniteMovement_bounded (mv : Movements) (fm : FiniteMovement)
    (h : mv.movementsSchedule.length ≤ MAX_MOVEMENTS) :
    (mv.appendFiniteMovement fm).2.movementsSchedule.length ≤ MAX_MOVEMENTS ∧
    (mv.movementsSchedule.length = MAX_MOVEMENTS →
      mv.appendFiniteMovement fm = (false, mv)) := by
  unfold Movements.appendFiniteMovement
  by_cases hfull : mv.movementsSchedule.length ≥ MAX_MOVEMENTS
  · rw [if_pos hfull]
    exact ⟨h, fun _ => rfl⟩
  · rw [if_neg hfull]
    constructor
    · simp only [Movements.addStop, Movements.setIndefiniteMovement,
        List.length_append, List.length_singleton, MAX_MOVEMENTS] at *
      omega
    · exact fun heq => absurd (le_of_eq heq.symm) hfull

/-- Witness for C7 on an empty scheduler. -/
theorem appendFiniteMovement_bounded_witness :
    (Movements.mk [] .still ⟨0, 0, 0⟩).movementsSchedule.length ≤ MAX_MOVEMENTS ∧
    (((Movements.mk [] .still ⟨0, 0, 0⟩).appendFiniteMovement
        (.spt (mkSpeedTimeLinear 0 0 0 1))).2.movementsSchedule.length
          ≤ MAX_MOVEMENTS ∧
      ((Movements.mk [] .still ⟨0, 0, 0⟩).movementsSchedule.length
          = MAX_MOVEMENTS →
        (Movements.mk [] .still ⟨0, 0, 0⟩).appendFiniteMovement
            (.spt (mkSpeedTimeLinear 0 0 0 1))
          = (false, Movements.mk [] .still ⟨0, 0, 0⟩))) :=
  ⟨by simp [MAX_MOVEMENTS],
   appendFiniteMovement_bounded (Movements.mk [] .still ⟨0, 0, 0⟩)
     (.spt (mkSpeedTimeLinear 0 0 0 1)) (by simp [MAX_MOVEMENTS])⟩

/-- C1: when the completion-scan loop of `Movements::handle` removes the last
scheduled movement it re-evaluates its condition on the now-null schedule
head instead of falling back to the indefinite movement. Concretely, with a
queue holding a single already-elapsed `SpeedTimeLinear` (duration 0 seconds,
called at time 5 ms) the loop queries the head of the emptied queue,
modelled as the `none` result. -/
theorem handle_queries_null_head :
    Movements.handle
      (Movements.mk [FiniteMovement.spt (mkSpeedTimeLinear 0 0 0 0)]
        IndefiniteMovement.still ⟨0, 0, 0⟩)
      ⟨0, 0, 0⟩ ⟨0, 0, 0⟩ 5 = none := by
  have hfloor : (⌊(0 : ℝ) * 1000 + 1 / 2⌋ : ℤ) = 0 := by
    rw [show ((0 : ℝ) * 1000 + 1 / 2) = 1 / 2 by norm_num,
      Int.floor_eq_zero_iff]
    constructor <;> norm_num
  have hdur : durationElapsed 5 5 (0 : ℝ) = true := by
    unfold durationElapsed lround
    rw [if_pos (by norm_num : (0 : ℝ) ≤ 0 * 1000), hfloor]
    norm_num
  simp [Movements.handle, scanSchedule, FiniteMovement.isFinished,
    SpeedTimeLinear.isFinished, mkSpeedTimeLinear, hdur]

/-- C8: `Omni3::home` succeeds exactly when the last measured body
displacement is zero on all three axes; on success the pose becomes (0, 0, 0)
with everything else untouched, and on failure the whole state is returned
unchanged. -/
theorem home_iff_zero_displacement (s : Omni3State) :
    ((Omni3.home s).1 = true ↔
      s.displacement.fwd = 0 ∧ s.displacement.str = 0 ∧ s.displacement.th = 0) ∧
    ((Omni3.home s).1 = true →
      (Omni3.home s).2 = { s with currentPosition := ⟨0, 0, 0⟩ }) ∧
    ((Omni3.home s).1 = false → (Omni3.home s).2 = s) := by
  unfold Omni3.home
  by_cases h : s.displacement.fwd ≠ 0 ∨ s.displacement.str ≠ 0 ∨
      s.displacement.th ≠ 0
  · rw [if_pos h]
    refine ⟨by simp; tauto, by simp, fun _ => rfl⟩
  · rw [if_neg h]
    push_neg at h
    refine ⟨by simp [h.1, h.2.1, h.2.2], fun _ => rfl, by simp⟩

/-- Witness for C8 on a state with pose (2, 3, 1) and zero displacement. -/
theorem home_iff_zero_displacement_witness :
    ((Omni3.home ⟨⟨2, 3, 1⟩, ⟨0, 0, 0⟩, Movements.mk [] .still ⟨0, 0, 0⟩⟩).1 = true ↔
      (Vec3.mk 0 0 0).fwd = 0 ∧ (Vec3.mk 0 0 0).str = 0 ∧
        (Vec3.mk 0 0 0).th = 0) ∧
    ((Omni3.home ⟨⟨2, 3, 1⟩, ⟨0, 0, 0⟩, Movements.mk [] .still ⟨0, 0, 0⟩⟩).1 = true →
      (Omni3.home ⟨⟨2, 3, 1⟩, ⟨0, 0, 0⟩, Movements.mk [] .still ⟨0, 0, 0⟩⟩).2 =
        { Omni3State.mk ⟨2, 3, 1⟩ ⟨0, 0, 0⟩ (Movements.mk [] .still ⟨0, 0, 0⟩) with
            currentPosition := ⟨0, 0, 0⟩ }) ∧
    ((Omni3.home ⟨⟨2, 3, 1⟩, ⟨0, 0, 0⟩, Movements.mk [] .still ⟨0, 0, 0⟩⟩).1 = false →
      (Omni3.home ⟨⟨2, 3, 1⟩, ⟨0, 0, 0⟩, Movements.mk [] .still ⟨0, 0, 0⟩⟩).2 =
        ⟨⟨2, 3, 1⟩, ⟨0, 0, 0⟩, Movements.mk [] .still ⟨0, 0, 0⟩⟩) :=
  home_iff_zero_displacement
    ⟨⟨2, 3, 1⟩, ⟨0, 0, 0⟩, Movements.mk [] .still ⟨0, 0, 0⟩⟩

/-- C10: every message byte whose upper five bits are below 0b10000 (message
value below 128, i.e. every Testers, Setters or Functions command) makes
`Omni3::handleMessage` return false with the robot state unchanged. -/
theorem handleMessage_non_movements_rejected (s : Omni3State) (message : ℕ)
    (args : List ℝ) (h : message < 128) :
    Omni3.handleMessage s message args = (false, s) := by
  have h16 : ¬ message / 8 ≥ 16 := by omega
  simp only [Omni3.handleMessage, Omni3.handleTestersMessage,
    Omni3.handleSettersMessage, Omni3.handleFunctionsMessage]
  rw [if_neg h16]
  by_cases h8 : message / 8 ≥ 8
  · rw [if_pos h8]
    by_cases h0 : message % 8 = 0
    · rw [if_pos h0]
    · rw [if_neg h0]
  · rw [if_neg h8]

/-- Witness for C10 at message byte 64 (a testers command). -/
theorem handleMessage_non_movements_rejected_witness :
    (64 : ℕ) < 128 ∧
    Omni3.handleMessage ⟨⟨0, 0, 0⟩, ⟨0, 0, 0⟩, Movements.mk [] .still ⟨0, 0, 0⟩⟩
        64 [] =
      (false, ⟨⟨0, 0, 0⟩, ⟨0, 0, 0⟩, Movements.mk [] .still ⟨0, 0, 0⟩⟩) :=
  ⟨by norm_num,
   handleMessage_non_movements_rejected
     ⟨⟨0, 0, 0⟩, ⟨0, 0, 0⟩, Movements.mk [] .still ⟨0, 0, 0⟩⟩ 64 []
     (by norm_num)⟩

/-- C9: `MDD3A::setMagnitude` multiplies the PIN NUMBER, not the duty cycle,
by the direction boolean. After `setSpeed(100)` on a driver with pins A=5 and
B=6 the code performs `analogWrite(5, 100)` and `analogWrite(0, 100)`: pin B
is never driven to 0 and pin 0 (neither A nor B) is written, while the
claimed dual-PWM contract (`MDD3A.specWrites`) prescribes `analogWrite(5,
100)` and `analogWrite(6, 0)`. -/
theorem MDD3A_setSpeed_wrong_pin :
    MDD3A.setSpeed ⟨5, 6, false, false, 0⟩ 100 =
      (⟨5, 6, true, false, 100⟩, [⟨5, 100⟩, ⟨0, 100⟩]) ∧
    MDD3A.specWrites ⟨5, 6, false, false, 0⟩ 100 = [⟨5, 100⟩, ⟨6, 0⟩] ∧
    (MDD3A.setSpeed ⟨5, 6, false, false, 0⟩ 100).2 ≠
      MDD3A.specWrites ⟨5, 6, false, false, 0⟩ 100 := by
  refine ⟨by decide, by decide, by decide⟩
